import Mathlib

/-!
Verification of the nba-schedule-bot repository (two Python files:
`nba_schedule_bot_github.py` and `nba_warning_bot.py`) against its
natural-language specification, via a shallow embedding in Lean 4.

Modelling conventions:
* Python strings are `List Char`; `str.upper()` is `List.map Char.toUpper`
  (the abbreviations involved are ASCII).
* Instants are `Int` seconds since the Unix epoch (UTC).  The configured
  timezone is `America/Phoenix`, a fixed UTC−7 zone with no daylight saving,
  so conversion to local time subtracts a constant 25200 seconds and a local
  calendar date is the floor-division of a local instant by 86400.
* An API event's `date` field is modelled as `Option Int`: `some t` is a
  successfully parsed UTC instant, `none` models an empty or unparseable
  date string (both are skipped by the source with `continue`).
* Effects (HTTP fetch, Telegram calls, the filesystem marker files) are
  modelled by explicit parameters and explicit state passing.
-/

namespace NbaBot

/-- `str.upper()` applied to a Python string, per character. -/
def pyUpper (s : List Char) : List Char := s.map Char.toUpper

/-- The exception table `abbrev_map` of `normalize_team_abbrev`
(`nba_schedule_bot_github.py`, lines 39–46). -/
def abbrev_map : List (List Char × List Char) :=
  [("NO".data, "NOP".data), ("SA".data, "SAS".data), ("NY".data, "NYK".data),
   ("GS".data, "GSW".data), ("UTAH".data, "UTA".data)]

/-- `normalize_team_abbrev` (`nba_schedule_bot_github.py`, lines 23–66):
empty input returned unchanged; otherwise uppercase, look up the exception
table, and pad/truncate to 3 characters. -/
def normalize_team_abbrev (s : List Char) : List Char :=
  if s = [] then s
  else
    let a := pyUpper s
    match abbrev_map.lookup a with
    | some v => v
    | none =>
      if a.length = 3 then a
      else if 3 < a.length then a.take 3
      else if a.length = 2 then a ++ a.drop 1
      else if a.length = 1 then a ++ a ++ a
      else a

/-- `Char.toUpper` is idempotent. -/
theorem toUpper_toUpper (c : Char) : c.toUpper.toUpper = c.toUpper := by
  by_cases h : 97 ≤ c.toNat ∧ c.toNat ≤ 122
  · obtain ⟨n, hn, h1, h2⟩ : ∃ n, c = Char.ofNat n ∧ 97 ≤ n ∧ n ≤ 122 :=
      ⟨c.toNat, (Char.ofNat_toNat c).symm, h.1, h.2⟩
    subst hn
    interval_cases n <;> decide
  · have hfix : c.toUpper = c := by
      unfold Char.toUpper
      simp only [ge_iff_le, ite_eq_right_iff]
      intro hc
      exact absurd hc h
    rw [hfix, hfix]

/-- `pyUpper` is idempotent. -/
theorem pyUpper_pyUpper (s : List Char) : pyUpper (pyUpper s) = pyUpper s := by
  simp only [pyUpper, List.map_map, Function.comp]
  exact List.map_congr_left fun c _ => toUpper_toUpper c

/-- No key of the exception table has length 3, so any length-3 string misses
the table. -/
theorem lookup_abbrev_map_len3 (v : List Char) (h : v.length = 3) :
    abbrev_map.lookup v = none := by
  match v, h with
  | [a, b, c], _ =>
    simp [abbrev_map, List.lookup_cons, List.instBEq, List.beq]

/-- A successful exception-table lookup yields one of the five mapped values. -/
theorem lookup_abbrev_map_some (u v : List Char) (h : abbrev_map.lookup u = some v) :
    v = "NOP".data ∨ v = "SAS".data ∨ v = "NYK".data ∨ v = "GSW".data ∨ v = "UTA".data := by
  simp only [abbrev_map, List.lookup_cons, List.lookup_nil] at h
  repeat' split at h
  all_goals simp_all

/-- Every output of `normalize_team_abbrev` is either empty (for empty input)
or a 3-character `pyUpper`-fixed string. -/
theorem normalize_shape (s : List Char) :
    normalize_team_abbrev s = [] ∨
      ((normalize_team_abbrev s).length = 3 ∧
        pyUpper (normalize_team_abbrev s) = normalize_team_abbrev s) := by
  unfold normalize_team_abbrev
  split
  · exact Or.inl (by assumption)
  · rename_i hne
    cases hu : abbrev_map.lookup (pyUpper s) with
    | some v =>
      simp only [hu]
      rcases lookup_abbrev_map_some _ _ hu with h | h | h | h | h <;> subst h <;>
        exact Or.inr ⟨by decide, by decide⟩
    | none =>
      simp only [hu]
      have hfix := pyUpper_pyUpper s
      split
      · exact Or.inr ⟨by assumption, hfix⟩
      · split
        · refine Or.inr ⟨?_, ?_⟩
          · simp [List.length_take]
            omega
          · simpa [pyUpper, List.map_take] using congrArg (List.take 3) hfix
        · split
          · rename_i h2
            refine Or.inr ⟨?_, ?_⟩
            · simp [h2]
            · simp only [pyUpper, List.map_append, List.map_drop] at hfix ⊢
              rw [hfix]
          · split
            · rename_i h1
              refine Or.inr ⟨?_, ?_⟩
              · simp [h1]
              · simp only [pyUpper, List.map_append] at hfix ⊢
                rw [hfix]
            · rename_i hc3 hc4 hc2 hc1
              exfalso
              have hlen : (pyUpper s).length ≠ 0 := by
                simp only [pyUpper, List.length_map]
                intro h
                exact hne (List.eq_nil_of_length_eq_zero h)
              omega

/-- C4: `normalize_team_abbrev` applies exactly these rules in order:
uppercase the input; if it matches an exception-table key return the mapped
value (case-insensitively, e.g. "no" → "NOP", "GS" → "GSW"); if length 3
return unchanged; if length > 3 return the first 3 characters; if length 2
append the last character; if length 1 triple the character; the empty
string is returned unchanged. -/
theorem C4_normalize_rules :
    normalize_team_abbrev [] = [] ∧
    (∀ s : List Char, s ≠ [] →
      (∀ v, abbrev_map.lookup (pyUpper s) = some v → normalize_team_abbrev s = v) ∧
      (abbrev_map.lookup (pyUpper s) = none →
        ((pyUpper s).length = 3 → normalize_team_abbrev s = pyUpper s) ∧
        (3 < (pyUpper s).length → normalize_team_abbrev s = (pyUpper s).take 3) ∧
        ((pyUpper s).length = 2 → ∀ c, (pyUpper s).getLast? = some c →
          normalize_team_abbrev s = pyUpper s ++ [c]) ∧
        (∀ c, pyUpper s = [c] → normalize_team_abbrev s = [c, c, c]))) ∧
    normalize_team_abbrev "no".data = "NOP".data ∧
    normalize_team_abbrev "GS".data = "GSW".data ∧
    normalize_team_abbrev "gs".data = "GSW".data ∧
    normalize_team_abbrev "No".data = "NOP".data := by
  refine ⟨by decide, ?_, by decide, by decide, by decide, by decide⟩
  intro s hs
  constructor
  · intro v hv
    simp only [normalize_team_abbrev, if_neg hs, hv]
  · intro hnone
    refine ⟨?_, ?_, ?_, ?_⟩
    · intro h3
      simp only [normalize_team_abbrev, if_neg hs, hnone, if_pos h3]
    · intro h4
      have h3 : ¬ (pyUpper s).length = 3 := by omega
      simp only [normalize_team_abbrev, if_neg hs, hnone, if_neg h3, if_pos h4]
    · intro h2 c hc
      have h3 : ¬ (pyUpper s).length = 3 := by omega
      have h4 : ¬ 3 < (pyUpper s).length := by omega
      simp only [normalize_team_abbrev, if_neg hs, hnone, if_neg h3, if_neg h4, if_pos h2]
      obtain ⟨a, b, hab⟩ := List.length_eq_two.mp h2
      rw [hab] at hc ⊢
      simp at hc
      simp [hc]
    · intro c hc
      have h3 : ¬ (pyUpper s).length = 3 := by rw [hc]; simp
      have h4 : ¬ 3 < (pyUpper s).length := by rw [hc]; simp
      have h2 : ¬ (pyUpper s).length = 2 := by rw [hc]; simp
      have h1 : (pyUpper s).length = 1 := by rw [hc]; simp
      simp only [normalize_team_abbrev, if_neg hs, hnone, if_neg h3, if_neg h4, if_neg h2,
        if_pos h1]
      rw [hc]
      rfl

/-- C4 witness: the spec's own example, "LA" → "LAA", through the rule
theorem at a concrete input. -/
theorem C4_normalize_rules_witness : normalize_team_abbrev "LA".data = "LAA".data := by
  have h := ((C4_normalize_rules.2.1 "LA".data (by decide)).2 (by decide)).2.2.1
    (by decide) 'A' (by decide)
  rw [h]
  decide

/-- A 3-character `pyUpper`-fixed string is a fixed point of the normalizer. -/
theorem normalize_fix3 (r : List Char) (h3 : r.length = 3) (hfix : pyUpper r = r) :
    normalize_team_abbrev r = r := by
  have hne : r ≠ [] := by
    intro e
    rw [e] at h3
    simp at h3
  simp only [normalize_team_abbrev, if_neg hne, hfix,
    lookup_abbrev_map_len3 _ h3, if_pos h3]

/-- C10: `normalize_team_abbrev` is idempotent: every non-empty output is a
3-character uppercase-fixed string that misses the exception table, and the
empty string maps to itself. -/
theorem C10_normalize_idempotent (s : List Char) :
    normalize_team_abbrev (normalize_team_abbrev s) = normalize_team_abbrev s := by
  rcases normalize_shape s with h | ⟨hlen, hfix⟩
  · rw [h]
    decide
  · exact normalize_fix3 _ hlen hfix

/-! ### Shared data model: instants, timezone, parsed API events

`TIMEZONE = "America/Phoenix"` is a fixed UTC−7 zone (no daylight saving),
so `astimezone(arizona_tz)` subtracts a constant 25200 seconds and `.date()`
on a local instant is floor-division by 86400. -/

/-- Offset of America/Phoenix behind UTC, in seconds. -/
def azOffset : Int := 25200

/-- `utc_time.astimezone(arizona_tz)` as a shift of the underlying instant
into the local frame. -/
def toLocal (t : Int) : Int := t - azOffset

/-- `.date()` of an instant expressed in its own frame: floor days since
the epoch. -/
def dateOf (x : Int) : Int := Int.fdiv x 86400

/-- `team` object of a competitor; `abbreviation` defaults to `""`. -/
structure Team where
  abbreviation : List Char

/-- One entry of `competitions[0].competitors`; `homeAway` is `"home"`,
`"away"`, or anything else (missing key modelled as `[]`). -/
structure Competitor where
  team : Team
  homeAway : List Char

/-- One entry of the `competitions` array. -/
structure Competition where
  competitors : List Competitor

/-- A parsed API event.  `date` is `some t` for a successfully parsed UTC
instant and `none` for an empty or unparseable date string (both skipped by
the source with `continue`).  `shortName`/`name` are `none` when the key is
absent. -/
structure Event where
  date : Option Int
  competitions : List Competition
  shortName : Option (List Char)
  name : Option (List Char)

/-- Python truthiness of an `Optional[str]` value: `None` and `""` are
falsy. -/
def pyTruthy : Option (List Char) → Bool
  | none => false
  | some s => !s.isEmpty

/-- Outcome of the HTTP fetch: `request` is a `requests.RequestException`,
`unexpected` any other exception raised inside the `try`. -/
inductive FetchErr where
  | request (msg : List Char)
  | unexpected (msg : List Char)

/-! ### `nba_schedule_bot_github.py`: digest retrieval -/

namespace ScheduleBot

/-- One step of the competitor loop (lines 116–124): normalize the
abbreviation and record it on the side named by `homeAway` (a later
competitor with the same tag overwrites an earlier one). -/
def competitorStep (acc : Option (List Char) × Option (List Char))
    (c : Competitor) : Option (List Char) × Option (List Char) :=
  let ab := normalize_team_abbrev c.team.abbreviation
  if c.homeAway = "away".data then (some ab, acc.2)
  else if c.homeAway = "home".data then (acc.1, some ab)
  else acc

/-- Lines 111–124: away/home extraction from `competitions[0].competitors`
(an empty `competitions` list is falsy, leaving both sides `None`). -/
def extractTeams (e : Event) : Option (List Char) × Option (List Char) :=
  match e.competitions with
  | [] => (none, none)
  | comp :: _ => comp.competitors.foldl competitorStep (none, none)

/-- Lines 127–134: the matchup label with its fallback chain. -/
def team_matchup (e : Event) : List Char :=
  let away_team := (extractTeams e).1
  let home_team := (extractTeams e).2
  if pyTruthy away_team && pyTruthy home_team then
    away_team.getD [] ++ "/".data ++ home_team.getD []
  else if pyTruthy away_team || pyTruthy home_team then
    (if pyTruthy away_team then away_team.getD []
     else if pyTruthy home_team then home_team.getD []
     else "Unknown".data)
  else
    e.shortName.getD (e.name.getD "Unknown".data)

/-- Loop body of `get_today_schedule` (lines 87–134) for one event:
`none` when the event is skipped (no/unparseable date, or local calendar
date differing from today), otherwise the local kickoff instant and the
matchup label. -/
def eventEntry (today : Int) (e : Event) : Option (Int × List Char) :=
  match e.date with
  | none => none
  | some t =>
    let local_time := toLocal t
    if dateOf local_time ≠ today then none
    else some (local_time, team_matchup e)

/-- Two-digit zero-padded decimal rendering used by `strftime`. -/
def twoDigits (n : Nat) : List Char :=
  [Nat.digitChar (n / 10 % 10), Nat.digitChar (n % 10)]

/-- Line 137: `local_time.strftime("%I:%M %p %Z").lstrip("0")` for the fixed
MST zone. -/
def formatGameTime (localT : Int) : List Char :=
  let s := (localT.emod 86400).toNat
  let hour24 := s / 3600
  let minute := s % 3600 / 60
  let hour12 := if hour24 % 12 = 0 then 12 else hour24 % 12
  let ampm := if hour24 < 12 then "AM".data else "PM".data
  (twoDigits hour12 ++ ":".data ++ twoDigits minute ++ " ".data ++ ampm
    ++ " MST".data).dropWhile (fun c => c == '0')

/-- The literal separator of line 139 as it appears in the source bytes. -/
def sepDash : List Char := [' ', Char.ofNat 0x201A, Char.ofNat 0xC4, Char.ofNat 0xEE, ' ']

/-- Line 139: `f"..."` rendering of one game line. -/
def gameLine (p : Int × List Char) : List Char :=
  p.2 ++ sepDash ++ formatGameTime p.1

/-- The sentinel of line 148, with the literal trailing characters of the
source bytes. -/
def noGamesText : List Char :=
  "No NBA games today ".data ++
    [Char.ofNat 0xF8FF, Char.ofNat 0xFC, Char.ofNat 0xE8, Char.ofNat 0xC4]

/-- Lines 86–148: the digest body over an already-parsed response.  Games
are appended in API order — there is no sort in this function. -/
def digestText (today : Int) (events : List Event) : List Char :=
  let games := (events.filterMap (eventEntry today)).map gameLine
  if games ≠ [] then List.intercalate "\n".data games
  else noGamesText

/-- The error-mark characters of the source bytes (line 151 and 153 begin
with them). -/
def errMark : List Char := [Char.ofNat 0x201A, Char.ofNat 0xF9, Char.ofNat 0xE5]

/-- Lines 150–153: the two `except` clauses of `get_today_schedule` render a
distinguished error string instead of raising. -/
def fetchErrText : FetchErr → List Char
  | .request m => errMark ++ " Error fetching schedule: ".data ++ m
  | .unexpected m => errMark ++ " Unexpected error: ".data ++ m

/-- `get_today_schedule` (lines 69–153) over an explicit fetch outcome. -/
def get_today_schedule (today : Int) (fetch : Except FetchErr (List Event)) :
    List Char :=
  match fetch with
  | .ok events => digestText today events
  | .error e => fetchErrText e

end ScheduleBot

/-! ### `nba_warning_bot.py`: trigger-monitor retrieval and tick logic

The per-event code (lines 45–92) is a verbatim duplicate of the digest
file's loop body, so it is translated again, separately, here. -/

namespace WarningBot

/-- One step of the competitor loop (lines 74–82). -/
def competitorStep (acc : Option (List Char) × Option (List Char))
    (c : Competitor) : Option (List Char) × Option (List Char) :=
  let ab := normalize_team_abbrev c.team.abbreviation
  if c.homeAway = "away".data then (some ab, acc.2)
  else if c.homeAway = "home".data then (acc.1, some ab)
  else acc

/-- Lines 69–82: away/home extraction from `competitions[0].competitors`. -/
def extractTeams (e : Event) : Option (List Char) × Option (List Char) :=
  match e.competitions with
  | [] => (none, none)
  | comp :: _ => comp.competitors.foldl competitorStep (none, none)

/-- Lines 85–90: the matchup label with its fallback chain. -/
def team_matchup (e : Event) : List Char :=
  let away_team := (extractTeams e).1
  let home_team := (extractTeams e).2
  if pyTruthy away_team && pyTruthy home_team then
    away_team.getD [] ++ "/".data ++ home_team.getD []
  else if pyTruthy away_team || pyTruthy home_team then
    (if pyTruthy away_team then away_team.getD []
     else if pyTruthy home_team then home_team.getD []
     else "Unknown".data)
  else
    e.shortName.getD (e.name.getD "Unknown".data)

/-- Loop body of `get_today_games_with_times` (lines 45–92) for one
event. -/
def eventEntry (today : Int) (e : Event) : Option (Int × List Char) :=
  match e.date with
  | none => none
  | some t =>
    let local_time := toLocal t
    if dateOf local_time ≠ today then none
    else some (local_time, team_matchup e)

/-- The comparison of line 97: `games.sort(key=lambda x: x[0])` orders by
the kickoff instant alone. -/
def gameLe (a b : Int × List Char) : Prop := a.1 ≤ b.1

instance : DecidableRel gameLe := fun a b => Int.decLe a.1 b.1

instance : IsTotal (Int × List Char) gameLe := ⟨fun a b => Int.le_total a.1 b.1⟩

instance : IsTrans (Int × List Char) gameLe := ⟨fun _ _ _ hab hbc => le_trans hab hbc⟩

/-- `get_today_games_with_times` (lines 27–105): retained events sorted by
time (Python's `list.sort` is a stable sort on the key, modelled by the
stable `insertionSort`); both `except` clauses return `[]`. -/
def get_today_games_with_times (today : Int)
    (fetch : Except FetchErr (List Event)) : List (Int × List Char) :=
  match fetch with
  | .ok events => ((events.filterMap (eventEntry today)).insertionSort gameLe)
  | .error _ => []

/-- `get_second_to_last_game_time` (lines 108–120): `games[-2]` when at
least two games exist. -/
def get_second_to_last_game_time (games : List (Int × List Char)) :
    Option (Int × List Char) :=
  if games.length < 2 then none
  else games[games.length - 2]?

/-- The on-disk marker files, reduced to the day keys they encode:
`warning_sent_{date}.txt` and `checkin_sent_{date}.txt`. -/
structure MarkerState where
  warningDates : List Int
  checkinDates : List Int
deriving DecidableEq

/-- Result of one tick of a check function: its return value, whether
`send_message_async` was invoked, and the marker state afterwards. -/
structure TickResult where
  sent : Bool
  notified : Bool
  state : MarkerState
deriving DecidableEq

/-- `check_and_send_warning` (lines 123–159) over an explicit marker state,
current local instant, fetch outcome, and Telegram send outcome. -/
def check_and_send_warning (st : MarkerState) (now : Int)
    (fetch : Except FetchErr (List Event)) (sendOk : Bool) : TickResult :=
  let games := get_today_games_with_times (dateOf now) fetch
  if games = [] then ⟨false, false, st⟩
  else
    match get_second_to_last_game_time games with
    | none => ⟨false, false, st⟩
    | some (game_time, _) =>
      let warning_time := game_time - 15 * 60
      let time_diff := (now - warning_time).natAbs
      if time_diff ≤ 60 then
        if dateOf now ∈ st.warningDates then ⟨false, false, st⟩
        else if sendOk then
          ⟨true, true, ⟨dateOf now :: st.warningDates, st.checkinDates⟩⟩
        else ⟨false, true, st⟩
      else ⟨false, false, st⟩

/-- `check_and_send_checkin` (lines 162–197). -/
def check_and_send_checkin (st : MarkerState) (now : Int)
    (fetch : Except FetchErr (List Event)) (sendOk : Bool) : TickResult :=
  let games := get_today_games_with_times (dateOf now) fetch
  if games = [] then ⟨false, false, st⟩
  else
    match get_second_to_last_game_time games with
    | none => ⟨false, false, st⟩
    | some (game_time, _) =>
      let time_diff := (now - game_time).natAbs
      if time_diff ≤ 60 then
        if dateOf now ∈ st.checkinDates then ⟨false, false, st⟩
        else if sendOk then
          ⟨true, true, ⟨st.warningDates, dateOf now :: st.checkinDates⟩⟩
        else ⟨false, true, st⟩
      else ⟨false, false, st⟩

end WarningBot

/-! ### Claim theorems about the retrieval pipelines -/

/-- C6: given the same parsed response and the same current local date, the
digest pipeline and the trigger-monitor pipeline retain exactly the same
events, with the same local-date filter, the same away/home extraction and
the same matchup label for each retained event. -/
theorem C6_retrieval_modes_agree (today : Int) (events : List Event) :
    (∀ e : Event, ScheduleBot.team_matchup e = WarningBot.team_matchup e) ∧
    (∀ e : Event, ScheduleBot.eventEntry today e = WarningBot.eventEntry today e) ∧
    events.filterMap (ScheduleBot.eventEntry today) =
      events.filterMap (WarningBot.eventEntry today) := by
  refine ⟨fun e => rfl, fun e => rfl, rfl⟩

/-- C3: both retrieval operations convert the event's UTC instant to the
configured local timezone and discard the event exactly when its local
calendar date differs from today's; in particular an event whose UTC date
equals today but whose local date differs is excluded. -/
theorem C3_local_date_filter (today t : Int) (e : Event) (hd : e.date = some t) :
    ((ScheduleBot.eventEntry today e).isSome ↔ dateOf (toLocal t) = today) ∧
    ((WarningBot.eventEntry today e).isSome ↔ dateOf (toLocal t) = today) ∧
    (dateOf t = today → dateOf (toLocal t) ≠ today →
      ScheduleBot.eventEntry today e = none ∧ WarningBot.eventEntry today e = none) := by
  refine ⟨?_, ?_, ?_⟩
  · simp only [ScheduleBot.eventEntry, hd]
    by_cases h : dateOf (toLocal t) = today <;> simp [h]
  · simp only [WarningBot.eventEntry, hd]
    by_cases h : dateOf (toLocal t) = today <;> simp [h]
  · intro _ hne
    constructor
    · simp only [ScheduleBot.eventEntry, hd]
      simp [hne]
    · simp only [WarningBot.eventEntry, hd]
      simp [hne]

/-- Concrete event for the C3 witness: kickoff at the UTC epoch instant,
whose UTC date is day 0 but whose Arizona date is day −1. -/
def evUtcMidnight : Event :=
  { date := some 0, competitions := [], shortName := none, name := none }

/-- C3 witness: at `today = 0`, `evUtcMidnight` has matching UTC date and
differing local date, and both pipelines exclude it. -/
theorem C3_local_date_filter_witness :
    evUtcMidnight.date = some 0 ∧ dateOf (0 : Int) = 0 ∧
      dateOf (toLocal 0) ≠ 0 ∧
      ScheduleBot.eventEntry 0 evUtcMidnight = none ∧
      WarningBot.eventEntry 0 evUtcMidnight = none := by
  have h := (C3_local_date_filter 0 0 evUtcMidnight (by decide)).2.2
    (by decide) (by decide)
  exact ⟨rfl, by decide, by decide, h.1, h.2⟩

/-- C7: the display label is "away/home" when both sides are truthy, the
present side when exactly one is, and otherwise falls back to `shortName`,
then `name`, then "Unknown"; an empty (or fully filtered) games list makes
the digest equal the no-games sentinel, otherwise the newline-join of the
per-game lines. -/
theorem C7_label_fallback_and_sentinel :
    (∀ e : Event,
      (pyTruthy (ScheduleBot.extractTeams e).1 → pyTruthy (ScheduleBot.extractTeams e).2 →
        ScheduleBot.team_matchup e =
          (ScheduleBot.extractTeams e).1.getD [] ++ "/".data ++
            (ScheduleBot.extractTeams e).2.getD []) ∧
      (pyTruthy (ScheduleBot.extractTeams e).1 → ¬ pyTruthy (ScheduleBot.extractTeams e).2 →
        ScheduleBot.team_matchup e = (ScheduleBot.extractTeams e).1.getD []) ∧
      (¬ pyTruthy (ScheduleBot.extractTeams e).1 → pyTruthy (ScheduleBot.extractTeams e).2 →
        ScheduleBot.team_matchup e = (ScheduleBot.extractTeams e).2.getD []) ∧
      (¬ pyTruthy (ScheduleBot.extractTeams e).1 → ¬ pyTruthy (ScheduleBot.extractTeams e).2 →
        ScheduleBot.team_matchup e = e.shortName.getD (e.name.getD "Unknown".data))) ∧
    (∀ (today : Int) (events : List Event),
      events.filterMap (ScheduleBot.eventEntry today) = [] →
        ScheduleBot.digestText today events = ScheduleBot.noGamesText) ∧
    (∀ (today : Int) (events : List Event),
      events.filterMap (ScheduleBot.eventEntry today) ≠ [] →
        ScheduleBot.digestText today events =
          List.intercalate "\n".data
            ((events.filterMap (ScheduleBot.eventEntry today)).map ScheduleBot.gameLine)) ∧
    (∀ today : Int, ScheduleBot.digestText today [] = ScheduleBot.noGamesText) := by
  refine ⟨?_, ?_, ?_, ?_⟩
  · intro e
    refine ⟨?_, ?_, ?_, ?_⟩ <;> intro h1 h2 <;>
      simp only [ScheduleBot.team_matchup] <;> simp [h1, h2]
  · intro today events h
    simp [ScheduleBot.digestText, h]
  · intro today events h
    have : (events.filterMap (ScheduleBot.eventEntry today)).map ScheduleBot.gameLine ≠ [] := by
      simpa using h
    simp [ScheduleBot.digestText, this]
  · intro today
    simp [ScheduleBot.digestText, ScheduleBot.eventEntry]

/-- Concrete event for the C7 witness: no competitors, a `shortName`
present. -/
def evShortNameOnly : Event :=
  { date := some (25200 + 3600 * 18), competitions := [],
    shortName := some "LAL @ BOS".data, name := some "Lakers at Celtics".data }

/-- C7 witness: with neither side resolvable the label is the `shortName`,
and an empty events array yields the sentinel. -/
theorem C7_label_fallback_and_sentinel_witness :
    ScheduleBot.team_matchup evShortNameOnly = "LAL @ BOS".data ∧
      ScheduleBot.digestText 5 [] = ScheduleBot.noGamesText := by
  constructor
  · have h := (C7_label_fallback_and_sentinel.1 evShortNameOnly).2.2.2
      (by decide) (by decide)
    rw [h]
    decide
  · exact C7_label_fallback_and_sentinel.2.2.2 5

/-- A concrete retained event with a late kickoff (20:00 local on day 0). -/
def evLate : Event :=
  { date := some (25200 + 3600 * 20),
    competitions := [⟨[⟨⟨"GS".data⟩, "away".data⟩, ⟨⟨"no".data⟩, "home".data⟩]⟩],
    shortName := none, name := none }

/-- A concrete retained event with an early kickoff (18:00 local on day 0). -/
def evEarly : Event :=
  { date := some (25200 + 3600 * 18),
    competitions := [⟨[⟨⟨"LAL".data⟩, "away".data⟩, ⟨⟨"BOS".data⟩, "home".data⟩]⟩],
    shortName := none, name := none }

/-- C5 counterexample: `get_today_schedule` emits its per-game lines in API
response order, not ascending kickoff order.  With the late game listed
first in the response, both events are retained and the digest's line order
has kickoff instants 72000 then 64800, which is not ascending. -/
theorem C5_digest_not_sorted_counterexample :
    (([evLate, evEarly].filterMap (ScheduleBot.eventEntry 0)).map Prod.fst
        = [72000, 64800]) ∧
    ¬ List.Pairwise (fun a b : Int × List Char => a.1 ≤ b.1)
        ([evLate, evEarly].filterMap (ScheduleBot.eventEntry 0)) ∧
    ScheduleBot.digestText 0 [evLate, evEarly] =
      List.intercalate "\n".data
        [ScheduleBot.gameLine (72000, "GSW/NOP".data),
         ScheduleBot.gameLine (64800, "LAL/BOS".data)] := by
  refine ⟨by decide, by decide, by decide⟩

/-- C5 (amended): the trigger-monitor list returned by
`get_today_games_with_times` is always in ascending order of kickoff
instant; the digest's per-game lines keep the API response order (the
retained entries are the unsorted `filterMap`), which need not be
ascending. -/
theorem C5_monitor_sorted (today : Int) (fetch : Except FetchErr (List Event)) :
    List.Pairwise (fun a b : Int × List Char => a.1 ≤ b.1)
      (WarningBot.get_today_games_with_times today fetch) ∧
    (∀ events : List Event, fetch = .ok events →
      ScheduleBot.digestText today events =
        (if (events.filterMap (ScheduleBot.eventEntry today)).map ScheduleBot.gameLine ≠ [] then
          List.intercalate "\n".data
            ((events.filterMap (ScheduleBot.eventEntry today)).map ScheduleBot.gameLine)
        else ScheduleBot.noGamesText)) := by
  constructor
  · cases fetch with
    | error e => simp [WarningBot.get_today_games_with_times]
    | ok events =>
      have h := List.sorted_insertionSort WarningBot.gameLe
        (events.filterMap (WarningBot.eventEntry today))
      simp only [WarningBot.get_today_games_with_times]
      exact h.imp (fun hab => hab)
  · intro events hf
    subst hf
    rfl

/-- C5 witness: the amended statement applied at a concrete two-game
fetch. -/
theorem C5_monitor_sorted_witness :
    List.Pairwise (fun a b : Int × List Char => a.1 ≤ b.1)
      (WarningBot.get_today_games_with_times 0 (Except.ok [evLate, evEarly])) ∧
    ScheduleBot.digestText 0 [evLate, evEarly] =
      (if ([evLate, evEarly].filterMap (ScheduleBot.eventEntry 0)).map ScheduleBot.gameLine
          ≠ [] then
        List.intercalate "\n".data
          (([evLate, evEarly].filterMap (ScheduleBot.eventEntry 0)).map ScheduleBot.gameLine)
      else ScheduleBot.noGamesText) :=
  ⟨(C5_monitor_sorted 0 (Except.ok [evLate, evEarly])).1,
   (C5_monitor_sorted 0 (Except.ok [evLate, evEarly])).2 [evLate, evEarly] rfl⟩

/-! ### Claim theorems about the trigger monitor -/

namespace WarningBot

/-- Exhaustive case analysis of one `check_and_send_warning` tick: either a
no-op return, a successful send that records today's marker, or a failed
send that leaves the state unchanged. -/
theorem warning_tick_cases (st : MarkerState) (now : Int)
    (fetch : Except FetchErr (List Event)) (sendOk : Bool) :
    check_and_send_warning st now fetch sendOk = ⟨false, false, st⟩ ∨
    (dateOf now ∉ st.warningDates ∧ sendOk = true ∧
      check_and_send_warning st now fetch sendOk =
        ⟨true, true, ⟨dateOf now :: st.warningDates, st.checkinDates⟩⟩) ∨
    (dateOf now ∉ st.warningDates ∧ sendOk = false ∧
      check_and_send_warning st now fetch sendOk = ⟨false, true, st⟩) := by
  simp only [check_and_send_warning]
  split
  · exact Or.inl rfl
  · split
    · exact Or.inl rfl
    · split
      · split
        · exact Or.inl rfl
        · split
          · rename_i hmem hsend
            exact Or.inr (Or.inl ⟨hmem, hsend, rfl⟩)
          · rename_i hmem hsend
            exact Or.inr (Or.inr ⟨hmem, by simpa using hsend, rfl⟩)
      · exact Or.inl rfl

/-- Exhaustive case analysis of one `check_and_send_checkin` tick. -/
theorem checkin_tick_cases (st : MarkerState) (now : Int)
    (fetch : Except FetchErr (List Event)) (sendOk : Bool) :
    check_and_send_checkin st now fetch sendOk = ⟨false, false, st⟩ ∨
    (dateOf now ∉ st.checkinDates ∧ sendOk = true ∧
      check_and_send_checkin st now fetch sendOk =
        ⟨true, true, ⟨st.warningDates, dateOf now :: st.checkinDates⟩⟩) ∨
    (dateOf now ∉ st.checkinDates ∧ sendOk = false ∧
      check_and_send_checkin st now fetch sendOk = ⟨false, true, st⟩) := by
  simp only [check_and_send_checkin]
  split
  · exact Or.inl rfl
  · split
    · exact Or.inl rfl
    · split
      · split
        · exact Or.inl rfl
        · split
          · rename_i hmem hsend
            exact Or.inr (Or.inl ⟨hmem, hsend, rfl⟩)
          · rename_i hmem hsend
            exact Or.inr (Or.inr ⟨hmem, by simpa using hsend, rfl⟩)
      · exact Or.inl rfl

/-- If today's warning marker exists, the warning tick is a no-op that
never reaches the Notifier. -/
theorem warning_marker_guard (st : MarkerState) (now : Int)
    (fetch : Except FetchErr (List Event)) (sendOk : Bool)
    (h : dateOf now ∈ st.warningDates) :
    check_and_send_warning st now fetch sendOk = ⟨false, false, st⟩ := by
  rcases warning_tick_cases st now fetch sendOk with hc | ⟨hm, _, _⟩ | ⟨hm, _, _⟩
  · exact hc
  · exact absurd h hm
  · exact absurd h hm

/-- If today's check-in marker exists, the check-in tick is a no-op that
never reaches the Notifier. -/
theorem checkin_marker_guard (st : MarkerState) (now : Int)
    (fetch : Except FetchErr (List Event)) (sendOk : Bool)
    (h : dateOf now ∈ st.checkinDates) :
    check_and_send_checkin st now fetch sendOk = ⟨false, false, st⟩ := by
  rcases checkin_tick_cases st now fetch sendOk with hc | ⟨hm, _, _⟩ | ⟨hm, _, _⟩
  · exact hc
  · exact absurd h hm
  · exact absurd h hm

/-- A tick whose schedule has no second-to-last game is a no-op. -/
theorem warning_noop_of_stl_none (st : MarkerState) (now : Int)
    (fetch : Except FetchErr (List Event)) (sendOk : Bool)
    (h : get_second_to_last_game_time
      (get_today_games_with_times (dateOf now) fetch) = none) :
    check_and_send_warning st now fetch sendOk = ⟨false, false, st⟩ := by
  simp only [check_and_send_warning]
  split
  · rfl
  · rw [h]

/-- A tick whose schedule has no second-to-last game is a no-op. -/
theorem checkin_noop_of_stl_none (st : MarkerState) (now : Int)
    (fetch : Except FetchErr (List Event)) (sendOk : Bool)
    (h : get_second_to_last_game_time
      (get_today_games_with_times (dateOf now) fetch) = none) :
    check_and_send_checkin st now fetch sendOk = ⟨false, false, st⟩ := by
  simp only [check_and_send_checkin]
  split
  · rfl
  · rw [h]

end WarningBot

/-- C2: with fewer than two games on the tick's schedule neither trigger
can fire (`get_second_to_last_game_time` is `None`); otherwise the target
is the game at index count − 2 of the ascending list, the Notifier is
invoked for the warning exactly when now is within 60 seconds of the target
time minus 15 minutes and no warning marker exists today, and for the
check-in exactly when now is within 60 seconds of the target time and no
check-in marker exists today. -/
theorem C2_trigger_conditions (st : WarningBot.MarkerState) (now : Int)
    (fetch : Except FetchErr (List Event)) (sendOk : Bool) :
    ∀ games : List (Int × List Char),
      games = WarningBot.get_today_games_with_times (dateOf now) fetch →
      (games.length < 2 →
        WarningBot.get_second_to_last_game_time games = none ∧
        WarningBot.check_and_send_warning st now fetch sendOk = ⟨false, false, st⟩ ∧
        WarningBot.check_and_send_checkin st now fetch sendOk = ⟨false, false, st⟩) ∧
      (2 ≤ games.length →
        WarningBot.get_second_to_last_game_time games = games[games.length - 2]?) ∧
      (∀ t m, WarningBot.get_second_to_last_game_time games = some (t, m) →
        ((WarningBot.check_and_send_warning st now fetch sendOk).notified = true ↔
          ((now - (t - 15 * 60)).natAbs ≤ 60 ∧ dateOf now ∉ st.warningDates)) ∧
        ((WarningBot.check_and_send_checkin st now fetch sendOk).notified = true ↔
          ((now - t).natAbs ≤ 60 ∧ dateOf now ∉ st.checkinDates))) := by
  intro games hg
  refine ⟨?_, ?_, ?_⟩
  · intro hlt
    have hstl : WarningBot.get_second_to_last_game_time games = none := by
      simp only [WarningBot.get_second_to_last_game_time]
      rw [if_pos hlt]
    refine ⟨hstl, ?_, ?_⟩
    · exact WarningBot.warning_noop_of_stl_none st now fetch sendOk (hg ▸ hstl)
    · exact WarningBot.checkin_noop_of_stl_none st now fetch sendOk (hg ▸ hstl)
  · intro hge
    simp only [WarningBot.get_second_to_last_game_time]
    rw [if_neg (by omega)]
  · intro t m hstl
    have hne : games ≠ [] := by
      intro e
      rw [e] at hstl
      simp [WarningBot.get_second_to_last_game_time] at hstl
    constructor
    · simp only [WarningBot.check_and_send_warning]
      rw [← hg, if_neg hne, hstl]
      dsimp only
      by_cases h1 : (now - (t - 15 * 60)).natAbs ≤ 60
      · rw [if_pos h1]
        by_cases h2 : dateOf now ∈ st.warningDates
        · rw [if_pos h2]
          simp [h2]
        · rw [if_neg h2]
          cases sendOk <;> exact ⟨fun _ => ⟨h1, h2⟩, fun _ => rfl⟩
      · rw [if_neg h1]
        exact ⟨fun h => absurd h Bool.false_ne_true, fun hr => absurd hr.1 h1⟩
    · simp only [WarningBot.check_and_send_checkin]
      rw [← hg, if_neg hne, hstl]
      dsimp only
      by_cases h1 : (now - t).natAbs ≤ 60
      · rw [if_pos h1]
        by_cases h2 : dateOf now ∈ st.checkinDates
        · rw [if_pos h2]
          simp [h2]
        · rw [if_neg h2]
          cases sendOk <;> exact ⟨fun _ => ⟨h1, h2⟩, fun _ => rfl⟩
      · rw [if_neg h1]
        exact ⟨fun h => absurd h Bool.false_ne_true, fun hr => absurd hr.1 h1⟩

/-- C2 witness: at the warning instant of the early game (63900 = 64800 −
900) of a concrete two-game schedule, with no marker, the warning tick
invokes the Notifier. -/
theorem C2_trigger_conditions_witness :
    (WarningBot.check_and_send_warning ⟨[], []⟩ 63900
      (Except.ok [evLate, evEarly]) true).notified = true :=
  ((C2_trigger_conditions ⟨[], []⟩ 63900 (Except.ok [evLate, evEarly]) true _
      rfl).2.2 64800 "LAL/BOS".data (by decide)).1.mpr (by decide)

/-- C1: per trigger kind and calendar date at most one message is ever
sent: a present marker makes the tick return `False` without calling the
Notifier; the marker set changes only on a send that returned success (a
failed send leaves it unchanged); and after a successful send any second
tick on the same date is a silent no-op. -/
theorem C1_marker_once_per_day (st : WarningBot.MarkerState) (now now2 : Int)
    (fetch fetch2 : Except FetchErr (List Event)) (sendOk sendOk2 : Bool) :
    (dateOf now ∈ st.warningDates →
      WarningBot.check_and_send_warning st now fetch sendOk = ⟨false, false, st⟩) ∧
    (dateOf now ∈ st.checkinDates →
      WarningBot.check_and_send_checkin st now fetch sendOk = ⟨false, false, st⟩) ∧
    ((WarningBot.check_and_send_warning st now fetch sendOk).state ≠ st →
      sendOk = true ∧
      (WarningBot.check_and_send_warning st now fetch sendOk).notified = true ∧
      (WarningBot.check_and_send_warning st now fetch sendOk).sent = true ∧
      (WarningBot.check_and_send_warning st now fetch sendOk).state.warningDates
        = dateOf now :: st.warningDates) ∧
    ((WarningBot.check_and_send_checkin st now fetch sendOk).state ≠ st →
      sendOk = true ∧
      (WarningBot.check_and_send_checkin st now fetch sendOk).notified = true ∧
      (WarningBot.check_and_send_checkin st now fetch sendOk).sent = true ∧
      (WarningBot.check_and_send_checkin st now fetch sendOk).state.checkinDates
        = dateOf now :: st.checkinDates) ∧
    (sendOk = false →
      (WarningBot.check_and_send_warning st now fetch sendOk).state = st ∧
      (WarningBot.check_and_send_checkin st now fetch sendOk).state = st) ∧
    ((WarningBot.check_and_send_warning st now fetch sendOk).sent = true →
      dateOf now2 = dateOf now →
      WarningBot.check_and_send_warning
        (WarningBot.check_and_send_warning st now fetch sendOk).state now2 fetch2 sendOk2
        = ⟨false, false, (WarningBot.check_and_send_warning st now fetch sendOk).state⟩) ∧
    ((WarningBot.check_and_send_checkin st now fetch sendOk).sent = true →
      dateOf now2 = dateOf now →
      WarningBot.check_and_send_checkin
        (WarningBot.check_and_send_checkin st now fetch sendOk).state now2 fetch2 sendOk2
        = ⟨false, false, (WarningBot.check_and_send_checkin st now fetch sendOk).state⟩) := by
  refine ⟨fun h => WarningBot.warning_marker_guard st now fetch sendOk h,
    fun h => WarningBot.checkin_marker_guard st now fetch sendOk h, ?_, ?_, ?_, ?_, ?_⟩
  · intro hne
    rcases WarningBot.warning_tick_cases st now fetch sendOk with hw | ⟨hwm, hws, hw⟩ |
      ⟨hwm, hws, hw⟩
    · rw [hw] at hne
      exact absurd rfl hne
    · rw [hw]
      exact ⟨hws, rfl, rfl, rfl⟩
    · rw [hw] at hne
      exact absurd rfl hne
  · intro hne
    rcases WarningBot.checkin_tick_cases st now fetch sendOk with hc | ⟨hcm, hcs, hc⟩ |
      ⟨hcm, hcs, hc⟩
    · rw [hc] at hne
      exact absurd rfl hne
    · rw [hc]
      exact ⟨hcs, rfl, rfl, rfl⟩
    · rw [hc] at hne
      exact absurd rfl hne
  · intro hfail
    constructor
    · rcases WarningBot.warning_tick_cases st now fetch sendOk with hw | ⟨hwm, hws, hw⟩ |
        ⟨hwm, hws, hw⟩
      · rw [hw]
      · rw [hws] at hfail
        exact absurd hfail (by simp)
      · rw [hw]
    · rcases WarningBot.checkin_tick_cases st now fetch sendOk with hc | ⟨hcm, hcs, hc⟩ |
        ⟨hcm, hcs, hc⟩
      · rw [hc]
      · rw [hcs] at hfail
        exact absurd hfail (by simp)
      · rw [hc]
  · intro hsent hdate
    rcases WarningBot.warning_tick_cases st now fetch sendOk with hw | ⟨hwm, hws, hw⟩ |
      ⟨hwm, hws, hw⟩
    · rw [hw] at hsent
      exact absurd hsent (by simp)
    · rw [hw]
      exact WarningBot.warning_marker_guard _ now2 fetch2 sendOk2
        (by rw [hdate]; exact List.mem_cons_self _ _)
    · rw [hw] at hsent
      exact absurd hsent (by simp)
  · intro hsent hdate
    rcases WarningBot.checkin_tick_cases st now fetch sendOk with hc | ⟨hcm, hcs, hc⟩ |
      ⟨hcm, hcs, hc⟩
    · rw [hc] at hsent
      exact absurd hsent (by simp)
    · rw [hc]
      exact WarningBot.checkin_marker_guard _ now2 fetch2 sendOk2
        (by rw [hdate]; exact List.mem_cons_self _ _)
    · rw [hc] at hsent
      exact absurd hsent (by simp)

/-- C1 witness: a concrete successful warning send at 63900 followed by a
second tick 30 seconds later on the same date, which does not resend. -/
theorem C1_marker_once_per_day_witness :
    (WarningBot.check_and_send_warning ⟨[], []⟩ 63900
      (Except.ok [evLate, evEarly]) true).sent = true ∧
    WarningBot.check_and_send_warning
      (WarningBot.check_and_send_warning ⟨[], []⟩ 63900
        (Except.ok [evLate, evEarly]) true).state 63930
      (Except.ok [evLate, evEarly]) true
      = ⟨false, false, (WarningBot.check_and_send_warning ⟨[], []⟩ 63900
          (Except.ok [evLate, evEarly]) true).state⟩ :=
  ⟨by decide,
   (C1_marker_once_per_day ⟨[], []⟩ 63900 63930 (Except.ok [evLate, evEarly])
      (Except.ok [evLate, evEarly]) true true).2.2.2.2.2.1 (by decide) (by decide)⟩

/-! ### Notifier (`send_message_async` / `send_message`) and `main` -/

/-- Result of the Telegram `get_me` identity call. -/
structure BotInfo where
  username : List Char

/-- The external world as seen by `send_message_async`: the configured
credentials and the outcomes of the operations that can raise.  An
`Except.error` value models the operation raising an exception whose text
is the payload. -/
structure TelegramEnv where
  botToken : List Char
  chatIdParse : Except (List Char) Int
  getMe : Except (List Char) BotInfo
  send : List Char → Except (List Char) Unit

/-- What one call of `send_message_async` did: its boolean return value and
whether `bot.send_message` was actually invoked. -/
structure SendOutcome where
  result : Bool
  attempted : Bool
deriving DecidableEq

/-- `send_message_async` (`nba_schedule_bot_github.py`, lines 156–204):
empty token returns `False` before any delivery attempt; a failure of
`int(CHAT_ID)` or `get_me` is caught by the outer `except` and returns
`False`; a failure of `send_message` is caught by the inner `except`,
classified for logging, and returns `False`; only a successful send returns
`True`.  Every `raise` point is an `Except.error` consumed here, so no
error value escapes this definition. -/
def send_message_async (env : TelegramEnv) (text : List Char) : SendOutcome :=
  if env.botToken = [] then ⟨false, false⟩
  else
    match env.chatIdParse with
    | .error _ => ⟨false, false⟩
    | .ok _ =>
      match env.getMe with
      | .error _ => ⟨false, false⟩
      | .ok _ =>
        match env.send text with
        | .ok _ => ⟨true, true⟩
        | .error _ => ⟨false, true⟩

/-- `send_message` (lines 207–221): `asyncio.run` of the coroutine inside a
`try` that converts any escaped exception to `False`; since the coroutine
value never escapes an error, this is its boolean result. -/
def send_message (env : TelegramEnv) (text : List Char) : Bool :=
  (send_message_async env text).result

/-- C8: `send_message` always returns a boolean and never propagates an
exception: an empty or unset bot token yields `False` before any delivery
attempt, every initialization or transport failure is converted to a
`False` return, and `True` is returned exactly when the chat-id parse, the
identity call and the send all succeed with a non-empty token. -/
theorem C8_send_message_boundary (env : TelegramEnv) (text : List Char) :
    (env.botToken = [] → send_message_async env text = ⟨false, false⟩) ∧
    (send_message env text = (send_message_async env text).result) ∧
    ((send_message_async env text).result = true ↔
      env.botToken ≠ [] ∧ (∃ c, env.chatIdParse = .ok c) ∧
        (∃ b, env.getMe = .ok b) ∧ env.send text = .ok ()) := by
  refine ⟨?_, rfl, ?_⟩
  · intro h
    simp [send_message_async, h]
  · by_cases ht : env.botToken = []
    · simp [send_message_async, ht]
    · cases hc : env.chatIdParse with
      | error m => simp [send_message_async, ht, hc]
      | ok c =>
        cases hm : env.getMe with
        | error m => simp [send_message_async, ht, hc, hm]
        | ok b =>
          cases hs : env.send text with
          | error m => simp [send_message_async, ht, hc, hm, hs]
          | ok u =>
            cases u
            simp [send_message_async, ht, hc, hm, hs]

/-- C8 witness: an environment with an empty bot token fails fast without a
delivery attempt. -/
theorem C8_send_message_boundary_witness :
    send_message_async
      ⟨[], Except.ok 7, Except.ok ⟨"bot".data⟩, fun _ => Except.ok ()⟩
      "hello".data = ⟨false, false⟩ :=
  (C8_send_message_boundary
    ⟨[], Except.ok 7, Except.ok ⟨"bot".data⟩, fun _ => Except.ok ()⟩
    "hello".data).1 rfl

/-- Python's `s.startswith(p)`. -/
def pyStartswith (s p : List Char) : Bool := s.take p.length == p

/-- `main` (`nba_schedule_bot_github.py`, lines 224–251) as its exit code:
1 when the token or the chat id is missing, else 1 when the fetched digest
text starts with the error mark, else 0 exactly when the send succeeded.
The send outcome is a boolean parameter (the message text does not affect
it). -/
def main_exit (botToken chatId : List Char) (today : Int)
    (fetch : Except FetchErr (List Event)) (sendOk : Bool) : Nat :=
  if botToken = [] ∨ chatId = [] then 1
  else
    if pyStartswith (ScheduleBot.get_today_schedule today fetch) ScheduleBot.errMark then 1
    else if sendOk then 0 else 1

/-- Both fetch-failure strings begin with the error mark. -/
theorem fetchErrText_starts (e : FetchErr) :
    pyStartswith (ScheduleBot.fetchErrText e) ScheduleBot.errMark = true := by
  cases e <;> simp [ScheduleBot.fetchErrText, ScheduleBot.errMark, pyStartswith]

/-- C9: the digest process exits 0 exactly when configuration is present,
the fetched text is not the distinguished error string, and the send
succeeds; it exits 1 on missing token or chat id, on any fetch failure
(reported by `get_today_schedule` as an error-marked string rather than an
exception), and on a send failure. -/
theorem C9_main_exit_codes (botToken chatId : List Char) (today : Int)
    (fetch : Except FetchErr (List Event)) (sendOk : Bool) :
    (main_exit botToken chatId today fetch sendOk = 0 ↔
      (botToken ≠ [] ∧ chatId ≠ [] ∧
        pyStartswith (ScheduleBot.get_today_schedule today fetch) ScheduleBot.errMark
          = false ∧ sendOk = true)) ∧
    (botToken = [] ∨ chatId = [] → main_exit botToken chatId today fetch sendOk = 1) ∧
    (∀ e, fetch = .error e → main_exit botToken chatId today fetch sendOk = 1) ∧
    (sendOk = false → main_exit botToken chatId today fetch sendOk = 1) := by
  refine ⟨?_, ?_, ?_, ?_⟩
  · by_cases hcfg : botToken = [] ∨ chatId = []
    · simp only [main_exit, if_pos hcfg]
      constructor
      · intro h
        exact absurd h (by simp)
      · rintro ⟨h1, h2, -, -⟩
        rcases hcfg with h | h
        · exact absurd h h1
        · exact absurd h h2
    · rw [main_exit, if_neg hcfg]
      push_neg at hcfg
      by_cases herr :
          pyStartswith (ScheduleBot.get_today_schedule today fetch) ScheduleBot.errMark
      · rw [if_pos herr]
        constructor
        · intro h
          exact absurd h (by simp)
        · rintro ⟨-, -, hfalse, -⟩
          rw [herr] at hfalse
          exact absurd hfalse (by simp)
      · rw [if_neg herr]
        cases sendOk
        · simp [hcfg.1, hcfg.2]
        · simp only [if_pos rfl]
          simp [hcfg.1, hcfg.2, Bool.eq_false_iff.mpr herr]
  · intro h
    simp [main_exit, h]
  · intro e he
    subst he
    simp only [main_exit, ScheduleBot.get_today_schedule]
    by_cases hcfg : botToken = [] ∨ chatId = []
    · rw [if_pos hcfg]
    · rw [if_neg hcfg, if_pos (fetchErrText_starts e)]
  · intro h
    subst h
    simp only [main_exit]
    by_cases hcfg : botToken = [] ∨ chatId = []
    · rw [if_pos hcfg]
    · rw [if_neg hcfg]
      split
      · rfl
      · rfl

/-- C9 witness: a concrete fetch failure exits with code 1. -/
theorem C9_main_exit_codes_witness :
    main_exit "tok".data "123".data 0
      (Except.error (FetchErr.request "down".data)) true = 1 :=
  (C9_main_exit_codes "tok".data "123".data 0
      (Except.error (FetchErr.request "down".data)) true).2.2.1
    (FetchErr.request "down".data) rfl

end NbaBot
